import Mathlib

/-!
Verification of the ghs (GitHub Stars Organizer) ingestion and
reconciliation pipeline, shallowly embedded from the Python sources
(`stars.py`, `src/database.py`, `src/embeddings.py`, `src/github_client.py`,
`src/readme_parser.py`).

Python strings are modelled as `List Char`; embedding vectors (Python
`List[float]`) are modelled as lists of rationals, since no floating-point
arithmetic is ever performed on them by the code under study (vectors are
only produced by the external model, stored and compared).
-/

/-- Python `str` modelled as a list of characters. -/
abbrev Str := List Char

/-- An embedding vector (`List[float]` in the source; no arithmetic is done
on the entries, so exact rationals stand in for the floats). -/
abbrev Vec := List Rat

/-- One repository as produced by
`GitHubStarsFetcher.get_starred_repositories` (github_client.py lines
113-125): the dict with keys id, full_name, name, description, url, stars,
language, created_at, updated_at, default_branch, owner. -/
structure Repo where
  id : Nat
  full_name : Str
  name : Str
  description : Option Str
  url : Str
  stars : Nat
  language : Option Str
  created_at : Option Str
  updated_at : Option Str
  default_branch : Str
  owner : Str
deriving DecidableEq, Repr

/-- One row of the `repositories` table (database.py lines 32-48, without
the sqlite rowid and the processed_at timestamp default). -/
structure RepoRow where
  repo_id : Nat
  full_name : Str
  name : Str
  description : Option Str
  url : Str
  stars : Nat
  language : Option Str
  created_at : Option Str
  updated_at : Option Str
  readme_content : Option Str
  readme_type : Option Str
deriving DecidableEq, Repr

/-- The persistent store: the `repositories` table and the
`vec_repositories` virtual table (database.py `_init_schema`). Both are
keyed by `repo_id`. -/
structure StarDatabase where
  repositories : List RepoRow
  vec_repositories : List (Nat × Vec)
deriving DecidableEq, Repr

/-- A fresh, empty database (the state after `_init_schema` on a new file). -/
def StarDatabase.empty : StarDatabase :=
  { repositories := [], vec_repositories := [] }

/-- `StarDatabase.repository_exists` (database.py lines 59-62):
`SELECT 1 FROM repositories WHERE repo_id = ?` is non-empty. -/
def repository_exists (db : StarDatabase) (repo_id : Nat) : Bool :=
  db.repositories.any (fun row => row.repo_id == repo_id)

/-- `StarDatabase.insert_repository` (database.py lines 64-96):
`INSERT OR REPLACE` of the row into `repositories`, and, only when
`embedding is not None`, `INSERT OR REPLACE` of `(repo_id, embedding)`
into `vec_repositories`.  `INSERT OR REPLACE` on the unique `repo_id` key
is modelled as: drop any old row with that key, add the new row. -/
def insert_repository (db : StarDatabase) (row : RepoRow)
    (embedding : Option Vec) : StarDatabase :=
  { repositories :=
      row :: db.repositories.filter (fun r => r.repo_id ≠ row.repo_id),
    vec_repositories :=
      match embedding with
      | some v =>
          (row.repo_id, v) ::
            db.vec_repositories.filter (fun p => p.1 ≠ row.repo_id)
      | none => db.vec_repositories }

/-- `StarDatabase.get_statistics` (database.py lines 118-134): the triple
(total_repositories, embedded_repositories, repositories_with_readme). -/
def get_statistics (db : StarDatabase) : Nat × Nat × Nat :=
  (db.repositories.length,
   db.vec_repositories.length,
   (db.repositories.filter (fun r => r.readme_content ≠ none)).length)

/-- `StarDatabase.get_all_repo_ids` (database.py lines 136-139). -/
def get_all_repo_ids (db : StarDatabase) : List Nat :=
  db.repositories.map (fun r => r.repo_id)

/-- `StarDatabase.delete_repository` (database.py lines 141-145): delete
from both tables by `repo_id`. -/
def delete_repository (db : StarDatabase) (repo_id : Nat) : StarDatabase :=
  { repositories := db.repositories.filter (fun r => r.repo_id ≠ repo_id),
    vec_repositories := db.vec_repositories.filter (fun p => p.1 ≠ repo_id) }

/-- Row lookup by `repo_id` (the first row matching the unique key). -/
def findRow (db : StarDatabase) (i : Nat) : Option RepoRow :=
  db.repositories.find? (fun r => r.repo_id == i)

/-- Vector-table lookup by `repo_id`. -/
def findVec (db : StarDatabase) (i : Nat) : Option (Nat × Vec) :=
  db.vec_repositories.find? (fun p => p.1 == i)

/-- The reconciliation diff computed by `cmd_refresh` (stars.py lines
240-243): `existing_ids = set(db.get_all_repo_ids())` and
`new_stars = [repo for repo in current_starred if repo["id"] not in existing_ids]`. -/
def refresh_new_stars (current_starred : List Repo) (db : StarDatabase) :
    List Repo :=
  let existing_ids := (get_all_repo_ids db).toFinset
  current_starred.filter (fun repo => repo.id ∉ existing_ids)

/-- The removal half of the diff in `cmd_refresh` (stars.py lines 236,
240, 243): `current_starred_ids = {repo["id"] for repo in current_starred}`
and `removed_stars = existing_ids - current_starred_ids`. -/
def refresh_removed_stars (current_starred : List Repo) (db : StarDatabase) :
    Finset Nat :=
  let existing_ids := (get_all_repo_ids db).toFinset
  let current_starred_ids := (current_starred.map (fun r => r.id)).toFinset
  existing_ids \ current_starred_ids

/-- Claim C1: for every remote listing and persisted-id set, the refresh
diff's add-set is exactly the listed items whose id is not persisted, and
its remove-set is exactly the persisted ids minus the listed ids. -/
theorem refresh_diff_correct (current_starred : List Repo)
    (db : StarDatabase) :
    (∀ repo, repo ∈ refresh_new_stars current_starred db ↔
      repo ∈ current_starred ∧ repo.id ∉ get_all_repo_ids db) ∧
    (∀ i, i ∈ refresh_removed_stars current_starred db ↔
      i ∈ get_all_repo_ids db ∧ i ∉ current_starred.map (fun r => r.id)) := by
  constructor
  · intro repo
    simp [refresh_new_stars, List.mem_filter, List.mem_toFinset]
  · intro i
    simp [refresh_removed_stars, Finset.mem_sdiff, List.mem_toFinset]

/-- The combined text built by `EmbeddingGenerator.generate_embedding`
(embeddings.py lines 25-34): `parts = [title]`, append `description` when
truthy, append `readme[:5000]` when `readme` is truthy, then
`" | ".join(parts)`.  Python truthiness of an optional string means:
present and non-empty. -/
def generate_embedding_text (title : Str) (description : Option Str)
    (readme : Option Str) : Str :=
  let parts := [title]
  let parts := parts ++
    (match description with
     | some d => if d ≠ [] then [d] else []
     | none => [])
  let parts := parts ++
    (match readme with
     | some r => if r ≠ [] then [r.take 5000] else []
     | none => [])
  List.intercalate (' ' :: '|' :: [' ']) parts

/-- `EmbeddingGenerator.generate_embedding` (embeddings.py lines 15-38):
encode the combined text with the external model.  The model
(`self.model.encode`) is an external collaborator and enters as the
function parameter `enc`. -/
def generate_embedding (enc : Str → Vec) (title : Str)
    (description readme : Option Str) : Vec :=
  enc (generate_embedding_text title description readme)

/-- Python `str.strip()`: drop whitespace from both ends. -/
def pyStrip (s : Str) : Str :=
  ((s.dropWhile Char.isWhitespace).reverse.dropWhile Char.isWhitespace).reverse

/-- `ReadmeFetcher.parse_content` (readme_parser.py lines 83-92): empty
content maps to the empty string; otherwise strip, then truncate to
50,000 characters.  The `readme_type` argument is unused by the source. -/
def parse_content (content : Str) (readme_type : Option Str) : Str :=
  if content = [] then []
  else
    let content := pyStrip content
    if content.length > 50000 then content.take 50000 else content

/-- One HTTP response (or transport failure) observed by
`ReadmeFetcher.fetch_readme`: status code, body text, Content-Type header,
and the X-RateLimit-Remaining / X-RateLimit-Reset headers when present.
`transportError` models a raised `requests.exceptions.RequestException`. -/
structure Response where
  transportError : Bool
  status : Nat
  text : Str
  contentType : Str
  hasRemaining : Bool
  remaining : Nat
  reset : Int
deriving DecidableEq, Repr

/-- The format inference of `ReadmeFetcher.fetch_readme` (readme_parser.py
lines 62-66): `"text"` when `"text/plain"` occurs in the Content-Type
header, else `"markdown"`. -/
def inferFormat (contentType : Str) : Str :=
  if ("text/plain".toList) <:+: contentType then "text".toList
  else "markdown".toList

/-- Whether `ReadmeFetcher._check_rate_limit` returns True for this
response (readme_parser.py lines 22-38): status 403, the
X-RateLimit-Remaining header present, and its value 0. -/
def isRateLimitRetry (r : Response) : Bool :=
  !r.transportError && r.status == 403 && r.hasRemaining && r.remaining == 0

/-- `ReadmeFetcher.fetch_readme` (readme_parser.py lines 48-81), driven by
the list of responses the server will give to the successive attempts.
Returns the `(content, type)` pair together with the number of attempts
used, or `none` when the provided responses are exhausted while the
recursion of line 76 (`return self.fetch_readme(owner, repo)`) is still
retrying. -/
def fetch_readme : List Response → Option ((Option Str × Option Str) × Nat)
  | [] => none
  | r :: rest =>
    if r.transportError then some ((none, none), 1)
    else if r.status == 200 then
      some ((some r.text, some (inferFormat r.contentType)), 1)
    else if r.status == 404 then some ((none, none), 1)
    else if isRateLimitRetry r then
      match fetch_readme rest with
      | some (res, n) => some (res, n + 1)
      | none => none
    else some ((none, none), 1)

/-- The work item handed from phase 1 to phase 2 (`fetch_readme_for_repo`
result dict, stars.py lines 41-45). -/
structure RepoData where
  repo : Repo
  readme_content : Option Str
  readme_type : Option Str
deriving DecidableEq, Repr

/-- `fetch_readme_for_repo` (stars.py lines 31-45): fetch the README,
parse it when the content is truthy, and bundle the result with the
repository.  `none` propagates non-termination of the underlying fetch. -/
def fetch_readme_for_repo (responses : List Response) (repo : Repo) :
    Option RepoData :=
  match fetch_readme responses with
  | none => none
  | some ((readme_content, readme_type), _) =>
    let readme_content :=
      match readme_content with
      | some c => if c ≠ [] then some (parse_content c readme_type) else some c
      | none => none
    some { repo := repo, readme_content := readme_content,
           readme_type := readme_type }

/-- `process_repository` (stars.py lines 48-73): generate the embedding
from full_name, description and the fetched README, then insert the full
record; the embedding argument passed to the store is never None. -/
def process_repository (enc : Str → Vec) (repo_data : RepoData)
    (db : StarDatabase) : StarDatabase :=
  let repo := repo_data.repo
  let embedding := generate_embedding enc repo.full_name repo.description
    repo_data.readme_content
  insert_repository db
    { repo_id := repo.id, full_name := repo.full_name, name := repo.name,
      description := repo.description, url := repo.url, stars := repo.stars,
      language := repo.language, created_at := repo.created_at,
      updated_at := repo.updated_at,
      readme_content := repo_data.readme_content,
      readme_type := repo_data.readme_type }
    (some embedding)

/-- Phase 1 of `cmd_fetch` / `cmd_refresh` (stars.py lines 124-143): the
thread pool collects one result per future; an item whose fetch raised is
reported and dropped from `repos_with_readmes`.  The per-item outcome is
the oracle `fetchOutcome` (`none` models a raised exception). -/
def phase1 (fetchOutcome : Repo → Option RepoData) (repos : List Repo) :
    List RepoData :=
  repos.filterMap fetchOutcome

/-- Phase 2 of `cmd_fetch` (stars.py lines 149-163): the sequential
embed-and-store loop.  `exc repo_data = some e` models
`process_repository` raising exception `e` for that item (caught by the
`except` clause, leaving the store untouched for it); `none` models
success, in which case the store write happens and `new_repos` is
incremented.  Returns the per-item terminal outcomes in submission order
together with the final store. -/
def phase2 (enc : Str → Vec) (exc : RepoData → Option Str) :
    List RepoData → StarDatabase →
      List (RepoData × Option Str) × StarDatabase
  | [], db => ([], db)
  | repo_data :: rest, db =>
    match exc repo_data with
    | some e =>
      let step := phase2 enc exc rest db
      ((repo_data, some e) :: step.1, step.2)
    | none =>
      let step := phase2 enc exc rest (process_repository enc repo_data db)
      ((repo_data, none) :: step.1, step.2)

/-- `cmd_fetch` (stars.py lines 76-179), its effect on the store: filter
out repositories already present (line 106), return early when nothing is
left (lines 112-116), otherwise run phase 1 then phase 2.  Result:
(new_repos, skipped_repos, final store). -/
def cmd_fetch_run (enc : Str → Vec) (fetchOutcome : Repo → Option RepoData)
    (exc : RepoData → Option Str) (starred_repos : List Repo)
    (db : StarDatabase) : Nat × Nat × StarDatabase :=
  let repos_to_process :=
    starred_repos.filter (fun repo => !(repository_exists db repo.id))
  let skipped_repos := starred_repos.length - repos_to_process.length
  if repos_to_process.isEmpty then (0, skipped_repos, db)
  else
    let repos_with_readmes := phase1 fetchOutcome repos_to_process
    let step := phase2 enc exc repos_with_readmes db
    ((step.1.filter (fun o => o.2 = none)).length, skipped_repos, step.2)

/-- Claim C2: when the store already contains every listed id, `cmd_fetch`
filters every item as already present and processes zero items, leaving
the store untouched. -/
theorem full_ingest_idempotent (enc : Str → Vec)
    (fetchOutcome : Repo → Option RepoData) (exc : RepoData → Option Str)
    (starred_repos : List Repo) (db : StarDatabase)
    (h : ∀ repo ∈ starred_repos, repository_exists db repo.id = true) :
    starred_repos.filter (fun repo => !(repository_exists db repo.id)) = [] ∧
    cmd_fetch_run enc fetchOutcome exc starred_repos db =
      (0, starred_repos.length, db) := by
  have hfilter :
      starred_repos.filter (fun repo => !(repository_exists db repo.id))
        = [] := by
    rw [List.filter_eq_nil_iff]
    intro a ha
    simp [h a ha]
  refine ⟨hfilter, ?_⟩
  simp [cmd_fetch_run, hfilter]

/-- A concrete repository used to instantiate hypotheses of the theorems. -/
def sampleRepo : Repo :=
  { id := 1, full_name := ['a'], name := ['a'], description := none,
    url := ['u'], stars := 0, language := none, created_at := none,
    updated_at := none, default_branch := ['m'], owner := ['o'] }

/-- The stored row matching `sampleRepo`. -/
def sampleRow : RepoRow :=
  { repo_id := 1, full_name := ['a'], name := ['a'], description := none,
    url := ['u'], stars := 0, language := none, created_at := none,
    updated_at := none, readme_content := none, readme_type := none }

/-- A concrete one-row store containing `sampleRepo`. -/
def sampleDB : StarDatabase :=
  { repositories := [sampleRow], vec_repositories := [] }

/-- A trivial concrete stand-in for the external embedding model. -/
def encZero : Str → Vec := fun _ => []

/-- A concrete work item for `sampleRepo`. -/
def sampleRepoData : RepoData :=
  { repo := sampleRepo, readme_content := none, readme_type := none }

theorem full_ingest_idempotent_witness :
    (∀ repo ∈ [sampleRepo], repository_exists sampleDB repo.id = true) ∧
    cmd_fetch_run encZero (fun _ => none) (fun _ => none) [sampleRepo]
      sampleDB = (0, 1, sampleDB) :=
  ⟨by decide,
   (full_ingest_idempotent encZero (fun _ => none) (fun _ => none)
      [sampleRepo] sampleDB (by decide)).2⟩

/-- Phase 2 produces exactly one terminal outcome per submitted item, in
submission order, and the successful and failed outcomes partition the
batch. -/
theorem phase2_outcomes (enc : Str → Vec) (exc : RepoData → Option Str) :
    ∀ (items : List RepoData) (db : StarDatabase),
      (phase2 enc exc items db).1.map Prod.fst = items ∧
      ((phase2 enc exc items db).1.filter (fun o => o.2.isNone)).length +
        ((phase2 enc exc items db).1.filter (fun o => o.2.isSome)).length =
          items.length
  | [], db => by simp [phase2]
  | repo_data :: rest, db => by
    rcases hexc : exc repo_data with _ | e
    · have ih := phase2_outcomes enc exc rest
        (process_repository enc repo_data db)
      have h2 := ih.2
      refine ⟨by simp [phase2, hexc, ih.1], ?_⟩
      simp only [phase2, hexc, List.filter_cons, Option.isNone_none,
        Option.isSome_none, List.length_cons, Bool.false_eq_true,
        ite_false, ite_true]
      omega
    · have ih := phase2_outcomes enc exc rest db
      have h2 := ih.2
      refine ⟨by simp [phase2, hexc, ih.1], ?_⟩
      simp only [phase2, hexc, List.filter_cons, Option.isNone_some,
        Option.isSome_some, List.length_cons, Bool.false_eq_true,
        ite_false, ite_true]
      omega

/-- Claim C3: even when some item's embed-or-store step raises, the phase-2
loop completes, every submitted item reaches exactly one terminal outcome
(in submission order), and successes plus failures equal submissions. -/
theorem batch_failure_containment (enc : Str → Vec)
    (exc : RepoData → Option Str) (items : List RepoData)
    (db : StarDatabase) (repo_data : RepoData)
    (hmem : repo_data ∈ items) (hfail : exc repo_data ≠ none) :
    (phase2 enc exc items db).1.map Prod.fst = items ∧
    ((phase2 enc exc items db).1.filter (fun o => o.2.isNone)).length +
      ((phase2 enc exc items db).1.filter (fun o => o.2.isSome)).length =
        items.length :=
  phase2_outcomes enc exc items db

theorem batch_failure_containment_witness :
    sampleRepoData ∈ [sampleRepoData] ∧
    (fun _ : RepoData => some ['e']) sampleRepoData ≠ none ∧
    (phase2 encZero (fun _ => some ['e']) [sampleRepoData] sampleDB).1.map
      Prod.fst = [sampleRepoData] :=
  ⟨by decide, by decide,
   (batch_failure_containment encZero (fun _ => some ['e'])
      [sampleRepoData] sampleDB sampleRepoData (by decide) (by decide)).1⟩

/-- `parse_content` never returns more than 50,000 characters. -/
theorem parse_content_length_le (content : Str) (readme_type : Option Str) :
    (parse_content content readme_type).length ≤ 50000 := by
  unfold parse_content
  split
  · simp
  · dsimp only
    split
    · simpa [List.length_take] using min_le_left 50000 (pyStrip content).length
    · omega

/-- Claim C4: a 404-equivalent README response yields the non-error result
(absent, absent) in a single attempt; the item is still stored with an
embedding generated from title and description alone and with
readme_content absent; and the stored embedding row is present for every
readme-content value, so embedding presence is independent of readme
presence. -/
theorem missing_document_outcome (enc : Str → Vec) (r : Response)
    (repo : Repo) (db : StarDatabase)
    (ht : r.transportError = false) (hs : r.status = 404) :
    fetch_readme [r] = some ((none, none), 1) ∧
    fetch_readme_for_repo [r] repo =
      some { repo := repo, readme_content := none, readme_type := none } ∧
    (findRow (process_repository enc
        { repo := repo, readme_content := none, readme_type := none } db)
        repo.id).map (fun row => row.readme_content) = some none ∧
    findVec (process_repository enc
        { repo := repo, readme_content := none, readme_type := none } db)
        repo.id =
      some (repo.id,
        generate_embedding enc repo.full_name repo.description none) ∧
    (∀ rc rt : Option Str,
      (findVec (process_repository enc
          { repo := repo, readme_content := rc, readme_type := rt } db)
          repo.id).isSome = true) := by
  refine ⟨?_, ?_, ?_, ?_, ?_⟩
  · simp [fetch_readme, ht, hs]
  · simp [fetch_readme_for_repo, fetch_readme, ht, hs]
  · simp [findRow, process_repository, insert_repository, List.find?]
  · simp [findVec, process_repository, insert_repository, List.find?]
  · intro rc rt
    simp [findVec, process_repository, insert_repository, List.find?]

/-- A concrete 404 response. -/
def resp404 : Response :=
  { transportError := false, status := 404, text := [], contentType := [],
    hasRemaining := false, remaining := 0, reset := 0 }

theorem missing_document_outcome_witness :
    resp404.transportError = false ∧ resp404.status = 404 ∧
    fetch_readme [resp404] = some ((none, none), 1) :=
  ⟨by decide, by decide,
   (missing_document_outcome encZero resp404 sampleRepo StarDatabase.empty
      (by decide) (by decide)).1⟩

/-- Claim C5: a successful (status-200) fetch produces a work item whose
readme content is at most 50,000 characters, with format markdown unless
the Content-Type header contains text/plain. -/
theorem fetched_readme_truncated (r : Response) (repo : Repo)
    (ht : r.transportError = false) (hs : r.status = 200) :
    ∃ c : Str, fetch_readme_for_repo [r] repo =
        some { repo := repo, readme_content := some c,
               readme_type := some (inferFormat r.contentType) } ∧
      c.length ≤ 50000 ∧
      (inferFormat r.contentType = "markdown".toList ↔
        ¬ ("text/plain".toList <:+: r.contentType)) := by
  have hfmt : inferFormat r.contentType = "markdown".toList ↔
      ¬ ("text/plain".toList <:+: r.contentType) := by
    unfold inferFormat
    by_cases hin : ("text/plain".toList) <:+: r.contentType
    · rw [if_pos hin]
      simp only [hin, not_true, iff_false]
      decide
    · rw [if_neg hin]
      exact iff_of_true rfl hin
  by_cases htext : r.text = []
  · refine ⟨[], ?_, by simp, hfmt⟩
    simp [fetch_readme_for_repo, fetch_readme, ht, hs, htext]
  · refine ⟨parse_content r.text (some (inferFormat r.contentType)), ?_,
      parse_content_length_le _ _, hfmt⟩
    simp [fetch_readme_for_repo, fetch_readme, ht, hs, htext]

/-- A concrete 200 response. -/
def resp200 : Response :=
  { transportError := false, status := 200, text := ['h', 'i'],
    contentType := [], hasRemaining := false, remaining := 0, reset := 0 }

theorem fetched_readme_truncated_witness :
    ∃ c : Str, fetch_readme_for_repo [resp200] sampleRepo =
        some { repo := sampleRepo, readme_content := some c,
               readme_type := some (inferFormat resp200.contentType) } ∧
      c.length ≤ 50000 ∧
      (inferFormat resp200.contentType = "markdown".toList ↔
        ¬ ("text/plain".toList <:+: resp200.contentType)) :=
  fetched_readme_truncated resp200 sampleRepo (by decide) (by decide)

/-- A concrete 403 rate-limit response (X-RateLimit-Remaining present and
zero), the case that makes `_check_rate_limit` return True. -/
def rlResp : Response :=
  { transportError := false, status := 403, text := [], contentType := [],
    hasRemaining := true, remaining := 0, reset := 0 }

/-- Outcome of one `self.github.get_user()` attempt inside
`_get_user_with_retry` (github_client.py lines 22-64). -/
inductive UserOutcome
  | ok
  | rateLimited
  | otherError
deriving DecidableEq, Repr

/-- `GitHubStarsFetcher._get_user_with_retry` (github_client.py lines
22-64): `max_retries = 3`, a `for attempt in range(max_retries)` loop that
returns at the first successful attempt and re-raises after the third
failure.  Result: whether a user was obtained, and the number of attempts
made. -/
def get_user_with_retry (o : Nat → UserOutcome) : Bool × Nat :=
  match o 0 with
  | .ok => (true, 1)
  | _ =>
    match o 1 with
    | .ok => (true, 2)
    | _ =>
      match o 2 with
      | .ok => (true, 3)
      | _ => (false, 3)

/-- A response that does not trigger the retry recursion resolves the
fetch in a single attempt. -/
theorem fetch_readme_no_retry (r : Response) (rest : List Response)
    (hr : isRateLimitRetry r = false) :
    ∃ res, fetch_readme (r :: rest) = some (res, 1) := by
  unfold fetch_readme
  split_ifs with h1 h2 h3 h4
  · exact ⟨(none, none), rfl⟩
  · exact ⟨(some r.text, some (inferFormat r.contentType)), rfl⟩
  · exact ⟨(none, none), rfl⟩
  · rw [h4] at hr; cases hr
  · exact ⟨(none, none), rfl⟩

/-- A rate-limit response adds exactly one recursive attempt. -/
theorem fetch_readme_retry_succ (x : Response) (l : List Response)
    (hx : isRateLimitRetry x = true) :
    fetch_readme (x :: l) =
      match fetch_readme l with
      | some (res, n) => some (res, n + 1)
      | none => none := by
  have h := hx
  simp only [isRateLimitRetry, Bool.and_eq_true, Bool.not_eq_true',
    beq_iff_eq] at h
  obtain ⟨⟨⟨hte, hst⟩, hhr⟩, hrem⟩ := h
  simp [fetch_readme, hte, hst, hx]

/-- The number of attempts `fetch_readme` makes is one more than the
number of leading rate-limit responses: unbounded in that number. -/
theorem fetch_readme_attempts (rs : List Response) (r : Response)
    (hrs : ∀ x ∈ rs, isRateLimitRetry x = true)
    (hr : isRateLimitRetry r = false) :
    ∃ res, fetch_readme (rs ++ [r]) = some (res, rs.length + 1) := by
  induction rs with
  | nil => simpa using fetch_readme_no_retry r [] hr
  | cons x l ih =>
    have hx := hrs x (List.mem_cons_self x l)
    obtain ⟨res, hres⟩ := ih (fun y hy => hrs y (List.mem_cons_of_mem x hy))
    refine ⟨res, ?_⟩
    rw [List.cons_append, fetch_readme_retry_succ x _ hx, hres]
    simp

/-- `_get_user_with_retry` never makes more than three attempts. -/
theorem get_user_attempts_le (o : Nat → UserOutcome) :
    (get_user_with_retry o).2 ≤ 3 := by
  cases h0 : o 0 <;> cases h1 : o 1 <;> cases h2 : o 2 <;>
    simp [get_user_with_retry, h0, h1, h2]

/-- Claim C6 counterexample: after four consecutive rate-limit responses
`fetch_readme` is still retrying (readme_parser.py line 76 recursion), so
the retry is not bounded by one cycle per rate-limit event (nor by three
attempts) and the fetch does not terminate under pathological
quota-server behaviour. -/
theorem fetch_readme_retry_unbounded :
    fetch_readme [rlResp, rlResp, rlResp, rlResp] = none := by decide

/-- Claim C6 amended: each 403 rate-limit response triggers exactly one
further recursive attempt, so `fetch_readme` terminates precisely when
the server eventually answers with a non-rate-limit response, using one
attempt more than the number of leading rate-limit responses — a count
unbounded in that number; the user fetch `_get_user_with_retry`, by
contrast, is bounded at three attempts. -/
theorem fetch_readme_retry_characterization (rs : List Response)
    (r : Response) (hrs : ∀ x ∈ rs, isRateLimitRetry x = true)
    (hr : isRateLimitRetry r = false) :
    (∃ res, fetch_readme (rs ++ [r]) = some (res, rs.length + 1)) ∧
    (∀ o : Nat → UserOutcome, (get_user_with_retry o).2 ≤ 3) :=
  ⟨fetch_readme_attempts rs r hrs hr, get_user_attempts_le⟩

theorem fetch_readme_retry_characterization_witness :
    (∀ x ∈ [rlResp, rlResp], isRateLimitRetry x = true) ∧
    isRateLimitRetry resp404 = false ∧
    ((∃ res, fetch_readme ([rlResp, rlResp] ++ [resp404]) =
        some (res, 3)) ∧
      (∀ o : Nat → UserOutcome, (get_user_with_retry o).2 ≤ 3)) :=
  ⟨by decide, by decide,
   fetch_readme_retry_characterization [rlResp, rlResp] resp404
     (by decide) (by decide)⟩

/-- The wait `ReadmeFetcher._check_rate_limit` computes when the remaining
budget is 0 (readme_parser.py line 31):
`max(reset_time - time.time(), 0) + 5`. -/
def readme_wait_time (now reset : Int) : Int := max (reset - now) 0 + 5

/-- The wait `GitHubStarsFetcher._check_rate_limit` computes when
`core.remaining == 0` (github_client.py line 76):
`max((core.reset - time.time()) + 5, 0)`. -/
def github_wait_time (now reset : Int) : Int := max (reset - now + 5) 0

/-- Modelled from the spec: the quota-wait formula the specification
states, `waitDuration = max(resetAt - now, 0) + safetyMargin`, with the
five-second margin used by the code. -/
def spec_wait_time (now reset : Int) : Int := max (reset - now) 0 + 5

/-- The wait performed by the README fetcher guard as a function of the
reported remaining budget (readme_parser.py lines 29-35; no wait when the
budget is positive). -/
def readme_check_wait (remaining : Nat) (now reset : Int) : Int :=
  if remaining = 0 then readme_wait_time now reset else 0

/-- The wait performed by the GitHub client guard as a function of the
remaining budget (github_client.py lines 74-83; no wait when the budget
is positive). -/
def github_check_wait (remaining : Nat) (now reset : Int) : Int :=
  if remaining = 0 then github_wait_time now reset else 0

/-- Claim C7 counterexample: with the budget exhausted, reset time 0 and
current time 10, the GitHub client guard computes a wait of 0, not the
claimed max(T - now, 0) + margin = 5. -/
theorem github_wait_neq_spec_formula :
    github_check_wait 0 10 0 ≠ spec_wait_time 10 0 := by decide

/-- Claim C7 amended: with the budget exhausted, the README fetcher guard
computes exactly the claimed formula max(T − now, 0) + 5, while the
GitHub client guard computes max(T − now + 5, 0) instead; under both
formulas the caller is suspended so that control resumes no earlier than
the reset time T and no later than max(T, now) + 5. -/
theorem quota_wait_bounds (remaining : Nat) (now reset : Int)
    (h : remaining = 0) :
    readme_check_wait remaining now reset = spec_wait_time now reset ∧
    reset ≤ now + readme_check_wait remaining now reset ∧
    now + readme_check_wait remaining now reset ≤ max reset now + 5 ∧
    reset ≤ now + github_check_wait remaining now reset ∧
    now + github_check_wait remaining now reset ≤ max reset now + 5 := by
  subst h
  unfold readme_check_wait github_check_wait readme_wait_time
    github_wait_time spec_wait_time
  simp only [if_pos rfl]
  refine ⟨rfl, ?_, ?_, ?_, ?_⟩ <;>
    (simp only [Int.max_def]; split_ifs <;> omega)

theorem quota_wait_bounds_witness :
    (0 : Nat) = 0 ∧
    (readme_check_wait 0 10 0 = spec_wait_time 10 0 ∧
     (0 : Int) ≤ 10 + readme_check_wait 0 10 0 ∧
     10 + readme_check_wait 0 10 0 ≤ max 0 10 + 5 ∧
     (0 : Int) ≤ 10 + github_check_wait 0 10 0 ∧
     10 + github_check_wait 0 10 0 ≤ max 0 10 + 5) :=
  ⟨rfl, quota_wait_bounds 0 10 0 rfl⟩

/-- Events relevant to the locking discipline of the shared rate-limit
state in `ReadmeFetcher` (readme_parser.py lines 8-46): the class-level
mutex, reads and writes of `_rate_limited` / `_rate_limit_reset_time`,
the console message, and the sleep. -/
inductive LockEvent
  | acquire
  | release
  | readState
  | writeState
  | sleep
  | log
deriving DecidableEq, Repr

/-- Control-flow trace of `ReadmeFetcher._check_rate_limit`
(readme_parser.py lines 22-38): on a 403 response, everything from
`with self._rate_limit_lock:` (line 25) to the end of the with-block runs
between acquire and release — setting `_rate_limited`, setting
`_rate_limit_reset_time`, printing, the `time.sleep(wait_time)` of line
35, and clearing `_rate_limited`. -/
def check_rate_limit_trace (r : Response) : List LockEvent :=
  if r.status == 403 then
    [.acquire] ++
    (if r.hasRemaining then
      (if r.remaining == 0 then
        [.writeState, .writeState, .log, .sleep, .writeState]
      else [])
    else []) ++
    [.release]
  else []

/-- Control-flow trace of `ReadmeFetcher._wait_if_rate_limited`
(readme_parser.py lines 40-46): the flag read, the reset-time read, and
the residual sleep all happen inside the with-block. -/
def wait_if_rate_limited_trace (rateLimited : Bool) (now reset_time : Int) :
    List LockEvent :=
  [.acquire] ++
  (if rateLimited then
    [.readState, .readState] ++
    (if max (reset_time - now) 0 > 0 then [.sleep] else [])
  else []) ++
  [.release]

/-- Scan a trace tracking the lock depth; true when some sleep event
occurs while the lock is held. -/
def sleepsWhileHeld (t : List LockEvent) : Bool :=
  (t.foldl (fun st e =>
    match e with
    | .acquire => (st.1 + 1, st.2)
    | .release => (st.1 - 1, st.2)
    | .sleep => (st.1, st.2 || decide (0 < st.1))
    | _ => st) ((0 : Int), false)).2

/-- Claim C8 counterexample: on a 403 response reporting zero remaining
budget, `_check_rate_limit` sleeps while holding the rate-limit mutex —
the sleep of readme_parser.py line 35 is inside the with-block opened at
line 25. -/
theorem rate_limit_sleep_holds_lock :
    sleepsWhileHeld (check_rate_limit_trace rlResp) = true := by decide

/-- Claim C8 amended: the shared rate-limit state is guarded by the single
class-level mutex used by every fetcher, but the mutex IS held across the
sleeps: every 403 response with zero remaining budget makes
`_check_rate_limit` sleep with the lock held (its whole body being one
acquire-release block), and any positive residual wait makes
`_wait_if_rate_limited` sleep with the lock held as well. -/
theorem rate_limit_lock_discipline (r : Response) (now reset_time : Int)
    (hs : r.status = 403) (hh : r.hasRemaining = true)
    (hr : r.remaining = 0) (hw : 0 < reset_time - now) :
    check_rate_limit_trace r =
      [.acquire, .writeState, .writeState, .log, .sleep, .writeState,
       .release] ∧
    sleepsWhileHeld (check_rate_limit_trace r) = true ∧
    sleepsWhileHeld (wait_if_rate_limited_trace true now reset_time) =
      true := by
  have h1 : check_rate_limit_trace r =
      [.acquire, .writeState, .writeState, .log, .sleep, .writeState,
       .release] := by
    simp [check_rate_limit_trace, hs, hh, hr]
  have hmax : max (reset_time - now) 0 > 0 := lt_max_of_lt_left hw
  have h2 : wait_if_rate_limited_trace true now reset_time =
      [.acquire, .readState, .readState, .sleep, .release] := by
    simp [wait_if_rate_limited_trace, hmax]
  refine ⟨h1, ?_, ?_⟩
  · rw [h1]; decide
  · rw [h2]; decide

theorem rate_limit_lock_discipline_witness :
    rlResp.status = 403 ∧ rlResp.hasRemaining = true ∧
    rlResp.remaining = 0 ∧ (0 : Int) < 10 - 0 ∧
    sleepsWhileHeld (check_rate_limit_trace rlResp) = true ∧
    sleepsWhileHeld (wait_if_rate_limited_trace true 0 10) = true :=
  ⟨by decide, by decide, by decide, by decide,
   (rate_limit_lock_discipline rlResp 0 10 (by decide) (by decide)
      (by decide) (by decide)).2.1,
   (rate_limit_lock_discipline rlResp 0 10 (by decide) (by decide)
      (by decide) (by decide)).2.2⟩

/-- Claim C9: two README texts agreeing on their first 5,000 characters
produce the same combined embedding-input text and hence the same
embedding — only the first 5,000 README characters influence the
embedding. -/
theorem embedding_input_cap (enc : Str → Vec) (title : Str)
    (description : Option Str) (r1 r2 : Str)
    (h : r1.take 5000 = r2.take 5000) :
    generate_embedding_text title description (some r1) =
      generate_embedding_text title description (some r2) ∧
    generate_embedding enc title description (some r1) =
      generate_embedding enc title description (some r2) := by
  have htext : generate_embedding_text title description (some r1) =
      generate_embedding_text title description (some r2) := by
    unfold generate_embedding_text
    by_cases h1 : r1 = []
    · have h2 : r2 = [] := by
        have ht : r2.take 5000 = [] := by rw [← h, h1]; simp
        rcases List.take_eq_nil_iff.mp ht with h5 | h0
        · omega
        · exact h0
      rw [h1, h2]
    · have h2 : r2 ≠ [] := by
        intro hc
        apply h1
        have ht : r1.take 5000 = [] := by rw [h, hc]; simp
        rcases List.take_eq_nil_iff.mp ht with h5 | h0
        · omega
        · exact h0
      simp only [h1, h2, ne_eq, not_false_eq_true, ite_true, h]
  exact ⟨htext, congrArg enc htext⟩

theorem embedding_input_cap_witness :
    (['a'].take 5000 = ['a'].take 5000) ∧
    generate_embedding_text ['t'] none (some ['a']) =
      generate_embedding_text ['t'] none (some ['a']) :=
  ⟨rfl, (embedding_input_cap encZero ['t'] none ['a'] ['a'] rfl).1⟩

/-- Store invariant: every id in the vector table also occurs in the
repositories table, and each table holds at most one row per id (the
`repo_id INTEGER UNIQUE NOT NULL` and `repo_id INTEGER PRIMARY KEY`
constraints of the schema). -/
abbrev DBInv (db : StarDatabase) : Prop :=
  (∀ p ∈ db.vec_repositories,
    p.1 ∈ db.repositories.map (fun r => r.repo_id)) ∧
  (db.repositories.map (fun r => r.repo_id)).Nodup ∧
  (db.vec_repositories.map (fun p => p.1)).Nodup

/-- Any id present before an insert is still present after it. -/
theorem mem_ids_insert (db : StarDatabase) (row : RepoRow)
    (emb : Option Vec) (i : Nat)
    (hi : i ∈ db.repositories.map (fun r => r.repo_id)) :
    i ∈ (insert_repository db row emb).repositories.map
      (fun r => r.repo_id) := by
  obtain ⟨r, hr, hrid⟩ := List.mem_map.mp hi
  by_cases hcase : i = row.repo_id
  · simp [insert_repository, hcase]
  · refine List.mem_map.mpr ⟨r, ?_, hrid⟩
    simp only [insert_repository, List.mem_cons, List.mem_filter]
    exact Or.inr ⟨hr, by simp [hrid, hcase]⟩

/-- `insert_repository` preserves the store invariant. -/
theorem DBInv_insert (db : StarDatabase) (row : RepoRow) (emb : Option Vec)
    (h : DBInv db) : DBInv (insert_repository db row emb) := by
  obtain ⟨hsub, hnr, hnv⟩ := h
  have hnr2 : ((insert_repository db row emb).repositories.map
      (fun r => r.repo_id)).Nodup := by
    simp only [insert_repository, List.map_cons, List.nodup_cons]
    refine ⟨?_, ?_⟩
    · intro hmem
      obtain ⟨r, hr, hrid⟩ := List.mem_map.mp hmem
      have := (List.mem_filter.mp hr).2
      simp [hrid] at this
    · exact (List.Sublist.map (fun r : RepoRow => r.repo_id)
        (List.filter_sublist _)).nodup hnr
  refine ⟨?_, hnr2, ?_⟩
  · intro p hp
    rcases hemb : emb with _ | v
    · rw [hemb] at hp
      simp only [insert_repository, hemb] at hp ⊢
      exact mem_ids_insert db row none p.1 (hsub p hp)
    · rw [hemb] at hp
      simp only [insert_repository, hemb, List.mem_cons] at hp
      rcases hp with hp | hp
      · simp [insert_repository, hp]
      · have hmem := (List.mem_filter.mp hp).1
        exact mem_ids_insert db row (some v) p.1 (hsub p hmem)
  · rcases hemb : emb with _ | v
    · simpa [insert_repository, hemb] using hnv
    · simp only [insert_repository, hemb, List.map_cons, List.nodup_cons]
      refine ⟨?_, ?_⟩
      · intro hmem
        obtain ⟨p, hp, hpid⟩ := List.mem_map.mp hmem
        have := (List.mem_filter.mp hp).2
        simp [hpid] at this
      · exact (List.Sublist.map (fun p : Nat × Vec => p.1)
        (List.filter_sublist _)).nodup hnv

/-- `delete_repository` preserves the store invariant. -/
theorem DBInv_delete (db : StarDatabase) (i : Nat) (h : DBInv db) :
    DBInv (delete_repository db i) := by
  obtain ⟨hsub, hnr, hnv⟩ := h
  refine ⟨?_, ?_, ?_⟩
  · intro p hp
    simp only [delete_repository, List.mem_filter] at hp
    obtain ⟨hpmem, hpne⟩ := hp
    obtain ⟨r, hr, hrid⟩ := List.mem_map.mp (hsub p hpmem)
    refine List.mem_map.mpr ⟨r, ?_, hrid⟩
    simp only [delete_repository, List.mem_filter]
    refine ⟨hr, ?_⟩
    simp only [decide_eq_true_eq] at hpne ⊢
    rw [hrid]
    exact hpne
  · exact (List.Sublist.map (fun r : RepoRow => r.repo_id)
      (List.filter_sublist _)).nodup hnr
  · exact (List.Sublist.map (fun p : Nat × Vec => p.1)
      (List.filter_sublist _)).nodup hnv

/-- Under the invariant, the embedded count never exceeds the total. -/
theorem embedded_le_total (db : StarDatabase) (h : DBInv db) :
    (get_statistics db).2.1 ≤ (get_statistics db).1 := by
  obtain ⟨hsub, hnr, hnv⟩ := h
  have hsubset : (db.vec_repositories.map (fun p => p.1)) ⊆
      (db.repositories.map (fun r => r.repo_id)) := by
    intro i hi
    obtain ⟨p, hp, hpid⟩ := List.mem_map.mp hi
    rw [← hpid]
    exact hsub p hp
  have hcalc : db.vec_repositories.length ≤ db.repositories.length := by
    calc db.vec_repositories.length
        = (db.vec_repositories.map (fun p => p.1)).length :=
          (List.length_map _ _).symm
      _ = (db.vec_repositories.map (fun p => p.1)).toFinset.card :=
          (List.toFinset_card_of_nodup hnv).symm
      _ ≤ (db.repositories.map (fun r => r.repo_id)).toFinset.card :=
          Finset.card_le_card (fun i hi =>
            List.mem_toFinset.mpr (hsubset (List.mem_toFinset.mp hi)))
      _ = (db.repositories.map (fun r => r.repo_id)).length :=
          List.toFinset_card_of_nodup hnr
      _ = db.repositories.length := List.length_map _ _
  simpa [get_statistics] using hcalc

/-- Claim C10: from any store satisfying the containment invariant (ids
in the vector table are ids in the repositories table), insert and delete
both preserve it, the fresh store satisfies it, and under it the
embedded-repository count reported by the statistics never exceeds the
total-repository count. -/
theorem store_containment_invariant (db : StarDatabase) (row : RepoRow)
    (emb : Option Vec) (i : Nat) (h : DBInv db) :
    DBInv (insert_repository db row emb) ∧
    DBInv (delete_repository db i) ∧
    DBInv StarDatabase.empty ∧
    (get_statistics db).2.1 ≤ (get_statistics db).1 :=
  ⟨DBInv_insert db row emb h, DBInv_delete db i h,
   ⟨by simp [StarDatabase.empty], by simp [StarDatabase.empty],
    by simp [StarDatabase.empty]⟩,
   embedded_le_total db h⟩

theorem store_containment_invariant_witness :
    DBInv sampleDB ∧
    (DBInv (insert_repository sampleDB sampleRow none) ∧
     (get_statistics sampleDB).2.1 ≤ (get_statistics sampleDB).1) :=
  ⟨by decide,
   (store_containment_invariant sampleDB sampleRow none 1 (by decide)).1,
   (store_containment_invariant sampleDB sampleRow none 1 (by decide)).2.2.2⟩
